import Mathlib

/-!
Shallow embedding of `marginal-tax-graph.py` (the 2026 marginal tax
analyzer).  The tax computation `get_tax_details` and the static schedule
table `DATA_2026` are translated line by line over `ℚ`; the decimal
constants of the source (`0.06`, `0.5`, `0.85`, `0.038`, rates divided by
100) become exact rationals.
-/

namespace MarginalTaxGraph

/-- Filing statuses supported by the schedule table (the keys of
`DATA_2026`). -/
inductive FilingStatus where
  | Single
  | MarriedFilingJointly
deriving DecidableEq, Repr

open FilingStatus

/-- One entry of `DATA_2026`: the per-status schedule. Brackets are
`(low, high, rate)` triples; `ss_t` is the pair of Social Security
provisional-income thresholds. -/
structure Schedule where
  std : ℚ
  senior_deduction : ℚ
  ord : List (ℚ × ℚ × ℚ)
  ltcg : List (ℚ × ℚ × ℚ)
  ss_t : ℚ × ℚ
  phaseout_start : ℚ
  niit : ℚ
  irmaa : List ℚ
deriving DecidableEq, Repr

/-- The `DATA_2026` table of the source, keyed by filing status.
`9e9` is the source's effectively-infinite terminal bound. -/
def DATA_2026 : FilingStatus → Schedule
  | Single =>
    { std := 16100, senior_deduction := 6500,
      ord := [(0, 12400, 10), (12400, 50400, 12), (50400, 105700, 22),
              (105700, 201775, 24), (201775, 256225, 32), (256225, 640600, 35),
              (640600, 9000000000, 37)],
      ltcg := [(0, 49450, 0), (49450, 545500, 15), (545500, 9000000000, 20)],
      ss_t := (25000, 34000), phaseout_start := 75000, niit := 200000,
      irmaa := [109000, 136000, 170000, 204000, 500000] }
  | MarriedFilingJointly =>
    { std := 32200, senior_deduction := 13000,
      ord := [(0, 24800, 10), (24800, 100800, 12), (100800, 211400, 22),
              (211400, 403550, 24), (403550, 512450, 32), (512450, 768700, 35),
              (768700, 9000000000, 37)],
      ltcg := [(0, 98900, 0), (98900, 613700, 15), (613700, 9000000000, 20)],
      ss_t := (32000, 44000), phaseout_start := 150000, niit := 250000,
      irmaa := [218000, 272000, 340000, 408000, 750000] }

/-- `phase_out` of the source: `max(0, (wages + ltcg - c["phaseout_start"]) * 0.06)`. -/
def phase_out (wages ltcg : ℚ) (status : FilingStatus) : ℚ :=
  max 0 ((wages + ltcg - (DATA_2026 status).phaseout_start) * (6 / 100))

/-- `sd_used` of the source: `max(0, c["senior_deduction"] - phase_out)` when
`senior`, else `0`. -/
def sd_used (wages ltcg : ℚ) (status : FilingStatus) (senior : Bool) : ℚ :=
  if senior then max 0 ((DATA_2026 status).senior_deduction - phase_out wages ltcg status)
  else 0

/-- `deduction = c["std"] + sd_used`. -/
def deduction (wages ltcg : ℚ) (status : FilingStatus) (senior : Bool) : ℚ :=
  (DATA_2026 status).std + sd_used wages ltcg status senior

/-- Provisional income `prov = wages + ltcg + 0.5 * ss`. -/
def prov (wages ltcg ss : ℚ) : ℚ :=
  wages + ltcg + (1 / 2) * ss

/-- The `taxable_ss` computation of the source: three-tier rule on
provisional income with thresholds `ss_t = (t1, t2)` and the inline filing
cap `6000`/`4500`. -/
def taxable_ss (wages ltcg ss : ℚ) (status : FilingStatus) : ℚ :=
  if prov wages ltcg ss > (DATA_2026 status).ss_t.2 then
    min ((85 / 100) * ss)
      ((prov wages ltcg ss - (DATA_2026 status).ss_t.2) * (85 / 100) +
        min (if status = MarriedFilingJointly then 6000 else 4500) ((1 / 2) * ss))
  else if prov wages ltcg ss > (DATA_2026 status).ss_t.1 then
    min ((1 / 2) * ss) ((prov wages ltcg ss - (DATA_2026 status).ss_t.1) * (1 / 2))
  else 0

/-- Ordinary taxable income `t_ord_inc = max(0, (wages + taxable_ss) - deduction)`. -/
def t_ord_inc (wages ltcg ss : ℚ) (status : FilingStatus) (senior : Bool) : ℚ :=
  max 0 ((wages + taxable_ss wages ltcg ss status) - deduction wages ltcg status senior)

/-- Body of the ordinary-bracket loop: if `t_ord_inc > low`, add
`(min(t_ord_inc, high) - low) * rate/100` and record `rate`. -/
def ordStep (t : ℚ) (acc : ℚ × ℚ) (b : ℚ × ℚ × ℚ) : ℚ × ℚ :=
  if t > b.1 then (acc.1 + (min t b.2.1 - b.1) * (b.2.2 / 100), b.2.2) else acc

/-- The ordinary-bracket loop: accumulated tax and last entered rate,
starting from `(0, 0)`. -/
def bracketFold (t : ℚ) (brackets : List (ℚ × ℚ × ℚ)) : ℚ × ℚ :=
  brackets.foldl (ordStep t) (0, 0)

/-- Combined taxable total `t_total = max(0, (wages + taxable_ss + ltcg) - deduction)`. -/
def t_total (wages ltcg ss : ℚ) (status : FilingStatus) (senior : Bool) : ℚ :=
  max 0 ((wages + taxable_ss wages ltcg ss status + ltcg) - deduction wages ltcg status senior)

/-- `l_portion = max(0, t_total - t_ord_inc)`: the amount taxed as LTCG. -/
def l_portion (wages ltcg ss : ℚ) (status : FilingStatus) (senior : Bool) : ℚ :=
  max 0 (t_total wages ltcg ss status senior - t_ord_inc wages ltcg ss status senior)

/-- Body of the LTCG loop: add `overlap * rate/100` where
`overlap = max(0, min(tOrd + lPort, high) - max(tOrd, low))`, and record
`rate` when `tOrd + lPort > low`. -/
def ltcgStep (tOrd lPort : ℚ) (acc : ℚ × ℚ) (b : ℚ × ℚ × ℚ) : ℚ × ℚ :=
  (acc.1 + max 0 (min (tOrd + lPort) b.2.1 - max tOrd b.1) * (b.2.2 / 100),
   if tOrd + lPort > b.1 then b.2.2 else acc.2)

/-- The LTCG loop, starting from `(0, 0)`. -/
def ltcgFold (tOrd lPort : ℚ) (brackets : List (ℚ × ℚ × ℚ)) : ℚ × ℚ :=
  brackets.foldl (ltcgStep tOrd lPort) (0, 0)

/-- The returned breakdown of `get_tax_details`, in the source's return
order and names. -/
structure TaxDetails where
  ord_tax : ℚ
  l_tax : ℚ
  niit : ℚ
  taxable_ss : ℚ
  current_ord_rate : ℚ
  current_ltcg_rate : ℚ
  sd_used : ℚ
deriving DecidableEq, Repr

/-- `get_tax_details(wages, ltcg, ss, status, senior)` of the source,
assembled from the line-by-line helper definitions above. -/
def get_tax_details (wages ltcg ss : ℚ) (status : FilingStatus) (senior : Bool) :
    TaxDetails :=
  { ord_tax :=
      (bracketFold (t_ord_inc wages ltcg ss status senior) (DATA_2026 status).ord).1
    l_tax :=
      (ltcgFold (t_ord_inc wages ltcg ss status senior)
        (l_portion wages ltcg ss status senior) (DATA_2026 status).ltcg).1
    niit := max 0 ((wages + ltcg - (DATA_2026 status).niit) * (38 / 1000))
    taxable_ss := taxable_ss wages ltcg ss status
    current_ord_rate :=
      (bracketFold (t_ord_inc wages ltcg ss status senior) (DATA_2026 status).ord).2
    current_ltcg_rate :=
      (ltcgFold (t_ord_inc wages ltcg ss status senior)
        (l_portion wages ltcg ss status senior) (DATA_2026 status).ltcg).2
    sd_used := sd_used wages ltcg status senior }

/-- Spec-side comparator for the Social Security three-tier rule, written
from the spec's words (§4.2 step 3): provisional income
`prov = wages + capitalGains + 0.5*socialSecurity`, thresholds `(t1, t2)`
from the schedule, and `filingCap` 6000 for joint filers, 4500 otherwise. -/
def spec_taxable_ss (wages capitalGains socialSecurity : ℚ)
    (status : FilingStatus) : ℚ :=
  let p := wages + capitalGains + (1 / 2) * socialSecurity
  let filingCap : ℚ := if status = MarriedFilingJointly then 6000 else 4500
  if p > (DATA_2026 status).ss_t.2 then
    min ((85 / 100) * socialSecurity)
      ((p - (DATA_2026 status).ss_t.2) * (85 / 100)
        + min filingCap ((1 / 2) * socialSecurity))
  else if p > (DATA_2026 status).ss_t.1 then
    min ((1 / 2) * socialSecurity) ((p - (DATA_2026 status).ss_t.1) * (1 / 2))
  else 0

/-- Spec-side comparator for the senior-deduction phase-out, written from
the spec's words (§4.2 step 1):
`seniorDeductionUsed = max(0, seniorDeduction - 0.06 * max(0, wages + capitalGains - seniorPhaseoutStart))`
when `isSenior`, else 0. -/
def spec_sd_used (wages capitalGains : ℚ) (status : FilingStatus)
    (senior : Bool) : ℚ :=
  if senior then
    max 0 ((DATA_2026 status).senior_deduction
      - (6 / 100) * max 0 (wages + capitalGains - (DATA_2026 status).phaseout_start))
  else 0

/-- The lower bound of the top (20%) capital-gains bracket of the schedule. -/
def topLtcgLow : FilingStatus → ℚ
  | Single => 545500
  | MarriedFilingJointly => 613700

/-! ### The bracket loops as sums of per-bracket terms -/

/-- The contribution of one bracket to the ordinary-income loop. -/
def ordTerm (t : ℚ) (b : ℚ × ℚ × ℚ) : ℚ :=
  if t > b.1 then (min t b.2.1 - b.1) * (b.2.2 / 100) else 0

/-- The contribution of one bracket to the LTCG loop. -/
def ltcgTerm (tOrd lPort : ℚ) (b : ℚ × ℚ × ℚ) : ℚ :=
  max 0 (min (tOrd + lPort) b.2.1 - max tOrd b.1) * (b.2.2 / 100)

/-- A well-formed bracket list: lower bound at most upper bound, and a
nonnegative rate, for every bracket. -/
def bracketOK (bs : List (ℚ × ℚ × ℚ)) : Prop :=
  ∀ b ∈ bs, b.1 ≤ b.2.1 ∧ 0 ≤ b.2.2

instance (bs : List (ℚ × ℚ × ℚ)) : Decidable (bracketOK bs) := by
  unfold bracketOK; infer_instance

lemma DATA_ord_OK (status : FilingStatus) : bracketOK (DATA_2026 status).ord := by
  cases status <;> decide

lemma DATA_ltcg_OK (status : FilingStatus) : bracketOK (DATA_2026 status).ltcg := by
  cases status <;> decide

lemma bracketFold_foldl_fst (t : ℚ) (bs : List (ℚ × ℚ × ℚ)) (a r : ℚ) :
    ((bs.foldl (ordStep t) (a, r)).1 : ℚ) = a + (bs.map (ordTerm t)).sum := by
  induction bs generalizing a r with
  | nil => simp
  | cons b bs ih =>
    simp only [List.foldl_cons, List.map_cons, List.sum_cons, ordStep, ordTerm]
    split_ifs with h
    · rw [ih]; ring
    · rw [ih]; ring

lemma bracketFold_fst (t : ℚ) (bs : List (ℚ × ℚ × ℚ)) :
    (bracketFold t bs).1 = (bs.map (ordTerm t)).sum := by
  rw [bracketFold, bracketFold_foldl_fst, zero_add]

lemma ltcgFold_foldl_fst (tOrd lPort : ℚ) (bs : List (ℚ × ℚ × ℚ)) (a r : ℚ) :
    ((bs.foldl (ltcgStep tOrd lPort) (a, r)).1 : ℚ)
      = a + (bs.map (ltcgTerm tOrd lPort)).sum := by
  induction bs generalizing a r with
  | nil => simp
  | cons b bs ih =>
    simp only [List.foldl_cons, List.map_cons, List.sum_cons, ltcgStep, ltcgTerm]
    rw [ih]; ring

lemma ltcgFold_fst (tOrd lPort : ℚ) (bs : List (ℚ × ℚ × ℚ)) :
    (ltcgFold tOrd lPort bs).1 = (bs.map (ltcgTerm tOrd lPort)).sum := by
  rw [ltcgFold, ltcgFold_foldl_fst, zero_add]

/-! ### Per-term facts -/

lemma ordTerm_nonneg {b : ℚ × ℚ × ℚ} (hb : b.1 ≤ b.2.1 ∧ 0 ≤ b.2.2) (t : ℚ) :
    0 ≤ ordTerm t b := by
  unfold ordTerm
  split_ifs with h
  · exact mul_nonneg (sub_nonneg.2 (le_min h.le hb.1)) (div_nonneg hb.2 (by norm_num))
  · exact le_rfl

lemma ordTerm_mono {b : ℚ × ℚ × ℚ} (hb : b.1 ≤ b.2.1 ∧ 0 ≤ b.2.2)
    {t₁ t₂ : ℚ} (h : t₁ ≤ t₂) : ordTerm t₁ b ≤ ordTerm t₂ b := by
  unfold ordTerm
  split_ifs with h1 h2 h2
  · exact mul_le_mul_of_nonneg_right
      (sub_le_sub_right (min_le_min h le_rfl) _) (div_nonneg hb.2 (by norm_num))
  · exact absurd (lt_of_lt_of_le h1 h) h2
  · exact mul_nonneg (sub_nonneg.2 (le_min h2.le hb.1)) (div_nonneg hb.2 (by norm_num))
  · exact le_rfl

lemma ordTerm_lipschitz {b : ℚ × ℚ × ℚ} (hb : b.1 ≤ b.2.1 ∧ 0 ≤ b.2.2)
    {t₁ t₂ : ℚ} (h : t₁ ≤ t₂) :
    ordTerm t₂ b - ordTerm t₁ b ≤ (t₂ - t₁) * (b.2.2 / 100) := by
  have hr : (0 : ℚ) ≤ b.2.2 / 100 := div_nonneg hb.2 (by norm_num)
  unfold ordTerm
  split_ifs with h1 h2 h2
  · have hm : min t₂ b.2.1 - min t₁ b.2.1 ≤ t₂ - t₁ := by
      simp only [min_def]; split_ifs <;> linarith
    calc (min t₂ b.2.1 - b.1) * (b.2.2 / 100) - (min t₁ b.2.1 - b.1) * (b.2.2 / 100)
        = (min t₂ b.2.1 - min t₁ b.2.1) * (b.2.2 / 100) := by ring
      _ ≤ (t₂ - t₁) * (b.2.2 / 100) := mul_le_mul_of_nonneg_right hm hr
  · have hm : min t₂ b.2.1 - b.1 ≤ t₂ - t₁ := by
      have := min_le_left t₂ b.2.1; have := not_lt.1 h2; linarith
    have := mul_le_mul_of_nonneg_right hm hr
    linarith
  · exact absurd (lt_of_lt_of_le h2 h) h1
  · have := mul_nonneg (sub_nonneg.2 h) hr
    linarith

lemma ltcgTerm_nonneg {b : ℚ × ℚ × ℚ} (hb : 0 ≤ b.2.2) (tOrd lPort : ℚ) :
    0 ≤ ltcgTerm tOrd lPort b :=
  mul_nonneg (le_max_left _ _) (div_nonneg hb (by norm_num))

lemma ltcgTerm_zero_portion (tOrd : ℚ) (b : ℚ × ℚ × ℚ) :
    ltcgTerm tOrd 0 b = 0 := by
  unfold ltcgTerm
  have h : min (tOrd + 0) b.2.1 - max tOrd b.1 ≤ 0 := by
    have h1 : min (tOrd + 0) b.2.1 ≤ tOrd := by
      have := min_le_left (tOrd + 0) b.2.1
      linarith
    have h2 : tOrd ≤ max tOrd b.1 := le_max_left _ _
    linarith
  rw [max_eq_left h, zero_mul]

/-! ### Fold-level facts -/

lemma bracketFold_fst_nonneg {bs : List (ℚ × ℚ × ℚ)} (hbs : bracketOK bs) (t : ℚ) :
    0 ≤ (bracketFold t bs).1 := by
  rw [bracketFold_fst]
  apply List.sum_nonneg
  intro x hx
  rw [List.mem_map] at hx
  obtain ⟨b, hb, rfl⟩ := hx
  exact ordTerm_nonneg (hbs b hb) t

lemma bracketFold_fst_mono {bs : List (ℚ × ℚ × ℚ)} (hbs : bracketOK bs)
    {t₁ t₂ : ℚ} (h : t₁ ≤ t₂) :
    (bracketFold t₁ bs).1 ≤ (bracketFold t₂ bs).1 := by
  rw [bracketFold_fst, bracketFold_fst]
  exact List.sum_le_sum fun b hb => ordTerm_mono (hbs b hb) h

lemma bracketFold_fst_lipschitz {bs : List (ℚ × ℚ × ℚ)} (hbs : bracketOK bs)
    {t₁ t₂ : ℚ} (h : t₁ ≤ t₂) :
    (bracketFold t₂ bs).1 - (bracketFold t₁ bs).1
      ≤ (t₂ - t₁) * ((bs.map (fun b => b.2.2)).sum / 100) := by
  rw [bracketFold_fst, bracketFold_fst]
  induction bs with
  | nil => simp
  | cons b bs ih =>
    have h1 := ordTerm_lipschitz (hbs b (List.mem_cons_self b bs)) h
    have h2 := ih fun x hx => hbs x (List.mem_cons_of_mem b hx)
    simp only [List.map_cons, List.sum_cons]
    calc ((ordTerm t₂ b + (bs.map (ordTerm t₂)).sum)
            - (ordTerm t₁ b + (bs.map (ordTerm t₁)).sum))
        = (ordTerm t₂ b - ordTerm t₁ b)
            + ((bs.map (ordTerm t₂)).sum - (bs.map (ordTerm t₁)).sum) := by ring
      _ ≤ (t₂ - t₁) * (b.2.2 / 100)
            + (t₂ - t₁) * ((bs.map (fun b => b.2.2)).sum / 100) := add_le_add h1 h2
      _ = (t₂ - t₁) * ((b.2.2 + (bs.map (fun b => b.2.2)).sum) / 100) := by ring

lemma ltcgFold_fst_nonneg {bs : List (ℚ × ℚ × ℚ)} (hbs : bracketOK bs)
    (tOrd lPort : ℚ) : 0 ≤ (ltcgFold tOrd lPort bs).1 := by
  rw [ltcgFold_fst]
  apply List.sum_nonneg
  intro x hx
  rw [List.mem_map] at hx
  obtain ⟨b, hb, rfl⟩ := hx
  exact ltcgTerm_nonneg (hbs b hb).2 tOrd lPort

/-! ### Social Security taxability: nonnegativity and monotonicity -/

lemma ssTier_mono (t1 t2 cap ss p₁ p₂ : ℚ) (hss : 0 ≤ ss)
    (hcap : (t2 - t1) * (1 / 2) ≤ cap) (hc0 : 0 ≤ cap) (hp : p₁ ≤ p₂) :
    (if p₁ > t2 then
        min ((85 / 100) * ss) ((p₁ - t2) * (85 / 100) + min cap ((1 / 2) * ss))
      else if p₁ > t1 then min ((1 / 2) * ss) ((p₁ - t1) * (1 / 2)) else 0)
    ≤ (if p₂ > t2 then
        min ((85 / 100) * ss) ((p₂ - t2) * (85 / 100) + min cap ((1 / 2) * ss))
      else if p₂ > t1 then min ((1 / 2) * ss) ((p₂ - t1) * (1 / 2)) else 0) := by
  have hcs : (0 : ℚ) ≤ min cap ((1 / 2) * ss) := le_min hc0 (by linarith)
  rcases lt_or_le t2 p₁ with h1 | h1
  · rw [if_pos h1, if_pos (lt_of_lt_of_le h1 hp)]
    exact min_le_min le_rfl (by linarith)
  · rw [if_neg (not_lt.2 h1)]
    rcases lt_or_le t1 p₁ with h2 | h2
    · rw [if_pos h2]
      rcases lt_or_le t2 p₂ with h3 | h3
      · rw [if_pos h3]
        apply le_min
        · exact (min_le_left _ _).trans (by linarith)
        · have hb : min ((1 / 2) * ss) ((p₁ - t1) * (1 / 2)) ≤ min cap ((1 / 2) * ss) :=
            le_min ((min_le_right _ _).trans (by linarith)) (min_le_left _ _)
          have hq : (0 : ℚ) ≤ (p₂ - t2) * (85 / 100) := by linarith
          linarith
      · rw [if_neg (not_lt.2 h3), if_pos (lt_of_lt_of_le h2 hp)]
        exact min_le_min le_rfl (by linarith)
    · rw [if_neg (not_lt.2 h2)]
      rcases lt_or_le t2 p₂ with h3 | h3
      · rw [if_pos h3]
        have hq : (0 : ℚ) ≤ (p₂ - t2) * (85 / 100) := by linarith
        exact le_min (by linarith) (by linarith)
      · rw [if_neg (not_lt.2 h3)]
        rcases lt_or_le t1 p₂ with h4 | h4
        · rw [if_pos h4]
          exact le_min (by linarith) (by linarith)
        · rw [if_neg (not_lt.2 h4)]

lemma prov_mono (l ss : ℚ) {w₁ w₂ : ℚ} (hw : w₁ ≤ w₂) :
    prov w₁ l ss ≤ prov w₂ l ss := by
  unfold prov; linarith

lemma taxable_ss_mono (l ss : ℚ) (status : FilingStatus) (hss : 0 ≤ ss)
    {w₁ w₂ : ℚ} (hw : w₁ ≤ w₂) :
    taxable_ss w₁ l ss status ≤ taxable_ss w₂ l ss status := by
  have hp := prov_mono l ss hw
  cases status
  · simpa [taxable_ss, DATA_2026] using
      ssTier_mono 25000 34000 4500 ss (prov w₁ l ss) (prov w₂ l ss) hss
        (by norm_num) (by norm_num) hp
  · simpa [taxable_ss, DATA_2026] using
      ssTier_mono 32000 44000 6000 ss (prov w₁ l ss) (prov w₂ l ss) hss
        (by norm_num) (by norm_num) hp

lemma taxable_ss_nonneg (w l ss : ℚ) (status : FilingStatus) (hss : 0 ≤ ss) :
    0 ≤ taxable_ss w l ss status := by
  have hcap : (0 : ℚ) ≤ if status = MarriedFilingJointly then (6000 : ℚ) else 4500 := by
    split_ifs <;> norm_num
  have hm : (0 : ℚ) ≤ min (if status = MarriedFilingJointly then (6000 : ℚ) else 4500)
      ((1 / 2) * ss) := le_min hcap (by linarith)
  unfold taxable_ss
  rcases lt_or_le ((DATA_2026 status).ss_t.2) (prov w l ss) with h1 | h1
  · rw [if_pos h1]
    refine le_min (by linarith) ?_
    have hq : (0 : ℚ) ≤ (prov w l ss - (DATA_2026 status).ss_t.2) * (85 / 100) := by
      linarith
    linarith
  · rw [if_neg (not_lt.2 h1)]
    rcases lt_or_le ((DATA_2026 status).ss_t.1) (prov w l ss) with h2 | h2
    · rw [if_pos h2]
      exact le_min (by linarith) (by linarith)
    · rw [if_neg (not_lt.2 h2)]

lemma taxable_ss_le (w l ss : ℚ) (status : FilingStatus) (hss : 0 ≤ ss) :
    taxable_ss w l ss status ≤ (85 / 100) * ss := by
  unfold taxable_ss
  rcases lt_or_le ((DATA_2026 status).ss_t.2) (prov w l ss) with h1 | h1
  · rw [if_pos h1]
    exact min_le_left _ _
  · rw [if_neg (not_lt.2 h1)]
    rcases lt_or_le ((DATA_2026 status).ss_t.1) (prov w l ss) with h2 | h2
    · rw [if_pos h2]
      have h := min_le_left ((1 / 2) * ss)
        ((prov w l ss - (DATA_2026 status).ss_t.1) * (1 / 2))
      linarith
    · rw [if_neg (not_lt.2 h2)]
      linarith

/-! ### Senior deduction and ordinary taxable income -/

lemma sd_used_true (w l : ℚ) (status : FilingStatus) :
    sd_used w l status true
      = max 0 ((DATA_2026 status).senior_deduction - phase_out w l status) := rfl

lemma sd_used_false (w l : ℚ) (status : FilingStatus) :
    sd_used w l status false = 0 := rfl

lemma sd_used_nonneg (w l : ℚ) (status : FilingStatus) (senior : Bool) :
    0 ≤ sd_used w l status senior := by
  cases senior
  · rw [sd_used_false]
  · rw [sd_used_true]
    exact le_max_left _ _

lemma phase_out_mono (l : ℚ) (status : FilingStatus) {w₁ w₂ : ℚ} (hw : w₁ ≤ w₂) :
    phase_out w₁ l status ≤ phase_out w₂ l status := by
  unfold phase_out
  exact max_le_max le_rfl (by nlinarith)

lemma sd_used_antitone (l : ℚ) (status : FilingStatus) (senior : Bool)
    {w₁ w₂ : ℚ} (hw : w₁ ≤ w₂) :
    sd_used w₂ l status senior ≤ sd_used w₁ l status senior := by
  cases senior
  · rw [sd_used_false, sd_used_false]
  · rw [sd_used_true, sd_used_true]
    exact max_le_max le_rfl (sub_le_sub_left (phase_out_mono l status hw) _)

lemma t_ord_inc_mono (l ss : ℚ) (status : FilingStatus) (senior : Bool)
    (hss : 0 ≤ ss) {w₁ w₂ : ℚ} (hw : w₁ ≤ w₂) :
    t_ord_inc w₁ l ss status senior ≤ t_ord_inc w₂ l ss status senior := by
  have h1 := taxable_ss_mono l ss status hss hw
  have h2 := sd_used_antitone l status senior hw
  unfold t_ord_inc deduction
  exact max_le_max le_rfl (by linarith)

/-! ### Closed form of the ordinary loop and further helpers -/

lemma ordTerm_closed {b : ℚ × ℚ × ℚ} (hb : b.1 ≤ b.2.1) (t : ℚ) :
    ordTerm t b = (min (max t b.1) b.2.1 - b.1) * (b.2.2 / 100) := by
  unfold ordTerm
  split_ifs with h
  · rw [max_eq_left h.le]
  · rw [max_eq_right (not_lt.1 h), min_eq_left hb]
    ring

lemma ord_rates_sum (status : FilingStatus) :
    ((DATA_2026 status).ord.map (fun b => b.2.2)).sum = 172 := by
  cases status <;> norm_num [DATA_2026]

lemma taxable_ss_zero (w l : ℚ) (status : FilingStatus) :
    taxable_ss w l 0 status = 0 := by
  have hcap : (0 : ℚ) ≤ if status = MarriedFilingJointly then (6000 : ℚ) else 4500 := by
    split_ifs <;> norm_num
  unfold taxable_ss
  rcases lt_or_le ((DATA_2026 status).ss_t.2) (prov w l 0) with h1 | h1
  · rw [if_pos h1]
    have hmin : min (if status = MarriedFilingJointly then (6000 : ℚ) else 4500)
        ((1 / 2) * 0) = 0 := by
      rw [mul_zero]
      exact min_eq_right hcap
    rw [hmin, mul_zero, add_zero]
    exact min_eq_left (by linarith)
  · rw [if_neg (not_lt.2 h1)]
    rcases lt_or_le ((DATA_2026 status).ss_t.1) (prov w l 0) with h2 | h2
    · rw [if_pos h2, mul_zero]
      exact min_eq_left (by linarith)
    · rw [if_neg (not_lt.2 h2)]

lemma sd_used_true' (w l : ℚ) (status : FilingStatus) :
    spec_sd_used w l status true
      = max 0 ((DATA_2026 status).senior_deduction
          - (6 / 100) * max 0 (w + l - (DATA_2026 status).phaseout_start)) := rfl

lemma sd_used_false' (w l : ℚ) (status : FilingStatus) :
    spec_sd_used w l status false = 0 := rfl

lemma max_zero_mul_const (x : ℚ) :
    max 0 (x * (6 / 100)) = (6 / 100) * max 0 x := by
  rcases le_total x 0 with h | h
  · rw [max_eq_left (by linarith : x * (6 / 100) ≤ 0), max_eq_left h, mul_zero]
  · rw [max_eq_right (by linarith : (0 : ℚ) ≤ x * (6 / 100)), max_eq_right h]
    ring

/-! ### Claims -/

/-- Claim C1: for every scenario, the taxable Social Security amount
returned by `get_tax_details` follows the three-tier rule on provisional
income `prov = wages + capitalGains + 0.5*socialSecurity` with thresholds
`(t1, t2)` from the schedule: if `prov > t2` it equals
`min(0.85*SS, (prov - t2)*0.85 + min(filingCap, 0.5*SS))` with
`filingCap = 6000` for Married Filing Jointly and `4500` for Single; else
if `prov > t1` it equals `min(0.5*SS, (prov - t1)*0.5)`; else 0. -/
theorem taxable_ss_follows_three_tier_rule (wages ltcg ss : ℚ)
    (status : FilingStatus) (senior : Bool) :
    (get_tax_details wages ltcg ss status senior).taxable_ss
      = spec_taxable_ss wages ltcg ss status := rfl

/-- Claim C2: for the scenario (Single, wages = 100000, capitalGains = 0,
socialSecurity = 0, senior = false), `get_tax_details` returns
`ordinaryTax` exactly equal to
`12400*0.10 + (50400-12400)*0.12 + (83900-50400)*0.22 = 13170`. -/
theorem single_100000_ordinary_tax :
    (get_tax_details 100000 0 0 FilingStatus.Single false).ord_tax
        = 12400 * (10 / 100) + (50400 - 12400) * (12 / 100)
            + (83900 - 50400) * (22 / 100) ∧
    (get_tax_details 100000 0 0 FilingStatus.Single false).ord_tax = 13170 := by
  have h1 : taxable_ss 100000 0 0 FilingStatus.Single = 0 := taxable_ss_zero _ _ _
  have h2 : t_ord_inc 100000 0 0 FilingStatus.Single false = 83900 := by
    unfold t_ord_inc deduction
    rw [h1, sd_used_false]
    norm_num [DATA_2026, max_def]
  have h3 : (get_tax_details 100000 0 0 FilingStatus.Single false).ord_tax = 13170 := by
    show (bracketFold (t_ord_inc 100000 0 0 FilingStatus.Single false)
        (DATA_2026 FilingStatus.Single).ord).1 = 13170
    rw [h2]
    norm_num [bracketFold, ordStep, DATA_2026, List.foldl_cons, List.foldl_nil,
      min_def, max_def]
  exact ⟨by rw [h3]; norm_num, h3⟩

/-- Claim C3: for every scenario and every nonnegative wage increase `d`,
with capital gains, Social Security, filing status and senior flag fixed,
the `ordinaryTax` and `taxableSS` returned by `get_tax_details` at
`wages + d` are at least those returned at `wages`. -/
theorem get_tax_details_monotone_in_wages (wages d ltcg ss : ℚ)
    (status : FilingStatus) (senior : Bool)
    (hw : 0 ≤ wages) (hl : 0 ≤ ltcg) (hss : 0 ≤ ss) (hd : 0 ≤ d) :
    (get_tax_details wages ltcg ss status senior).ord_tax
        ≤ (get_tax_details (wages + d) ltcg ss status senior).ord_tax ∧
    (get_tax_details wages ltcg ss status senior).taxable_ss
        ≤ (get_tax_details (wages + d) ltcg ss status senior).taxable_ss := by
  have hww : wages ≤ wages + d := by linarith
  exact ⟨bracketFold_fst_mono (DATA_ord_OK status)
          (t_ord_inc_mono ltcg ss status senior hss hww),
        taxable_ss_mono ltcg ss status hss hww⟩

/-- Witness for C3 at (Single, wages = 30000, d = 10000, capitalGains = 0,
socialSecurity = 20000, senior = false). -/
theorem get_tax_details_monotone_in_wages_witness :
    (get_tax_details 30000 0 20000 FilingStatus.Single false).ord_tax
        ≤ (get_tax_details (30000 + 10000) 0 20000 FilingStatus.Single false).ord_tax ∧
    (get_tax_details 30000 0 20000 FilingStatus.Single false).taxable_ss
        ≤ (get_tax_details (30000 + 10000) 0 20000 FilingStatus.Single false).taxable_ss :=
  get_tax_details_monotone_in_wages 30000 10000 0 20000 FilingStatus.Single false
    (by norm_num) (by norm_num) (by norm_num) (by norm_num)

/-- Claim C4: for every scenario with nonnegative inputs, the `taxableSS`
returned by `get_tax_details` is at most 0.85 times the Social Security
input. -/
theorem taxable_ss_le_85_percent (wages ltcg ss : ℚ) (status : FilingStatus)
    (senior : Bool) (hw : 0 ≤ wages) (hl : 0 ≤ ltcg) (hss : 0 ≤ ss) :
    (get_tax_details wages ltcg ss status senior).taxable_ss
      ≤ (85 / 100) * ss :=
  taxable_ss_le wages ltcg ss status hss

/-- Witness for C4 at (Single, wages = 10000, capitalGains = 0,
socialSecurity = 40000, senior = false). -/
theorem taxable_ss_le_85_percent_witness :
    (get_tax_details 10000 0 40000 FilingStatus.Single false).taxable_ss
      ≤ (85 / 100) * 40000 :=
  taxable_ss_le_85_percent 10000 0 40000 FilingStatus.Single false
    (by norm_num) (by norm_num) (by norm_num)

/-- Claim C5: for every scenario with nonnegative inputs, all five currency
outputs of `get_tax_details` — `ordinaryTax`, `capitalGainsTax`, `niit`,
`taxableSS` and `seniorDeductionUsed` — are nonnegative. -/
theorem outputs_nonneg (wages ltcg ss : ℚ) (status : FilingStatus)
    (senior : Bool) (hw : 0 ≤ wages) (hl : 0 ≤ ltcg) (hss : 0 ≤ ss) :
    0 ≤ (get_tax_details wages ltcg ss status senior).ord_tax ∧
    0 ≤ (get_tax_details wages ltcg ss status senior).l_tax ∧
    0 ≤ (get_tax_details wages ltcg ss status senior).niit ∧
    0 ≤ (get_tax_details wages ltcg ss status senior).taxable_ss ∧
    0 ≤ (get_tax_details wages ltcg ss status senior).sd_used :=
  ⟨bracketFold_fst_nonneg (DATA_ord_OK status) _,
   ltcgFold_fst_nonneg (DATA_ltcg_OK status) _ _,
   le_max_left _ _,
   taxable_ss_nonneg wages ltcg ss status hss,
   sd_used_nonneg wages ltcg status senior⟩

/-- Witness for C5 at (Married Filing Jointly, wages = 200000,
capitalGains = 50000, socialSecurity = 40000, senior = true). -/
theorem outputs_nonneg_witness :
    0 ≤ (get_tax_details 200000 50000 40000 FilingStatus.MarriedFilingJointly true).ord_tax ∧
    0 ≤ (get_tax_details 200000 50000 40000 FilingStatus.MarriedFilingJointly true).l_tax ∧
    0 ≤ (get_tax_details 200000 50000 40000 FilingStatus.MarriedFilingJointly true).niit ∧
    0 ≤ (get_tax_details 200000 50000 40000 FilingStatus.MarriedFilingJointly true).taxable_ss ∧
    0 ≤ (get_tax_details 200000 50000 40000 FilingStatus.MarriedFilingJointly true).sd_used :=
  outputs_nonneg 200000 50000 40000 FilingStatus.MarriedFilingJointly true
    (by norm_num) (by norm_num) (by norm_num)

/-- Claim C6: the ordinary tax computed by the progressive-bracket
accumulation is a continuous function of ordinary taxable income at every
bracket edge: it agrees everywhere with the single piecewise-linear
function `t ↦ Σ_b (min(max(t, low), high) - low) * rate/100`, is
monotone, and is Lipschitz with constant 1.72 (the sum of the rates over
100), hence has no jump discontinuity anywhere, in particular at each
bracket boundary. -/
theorem ordinary_tax_bracket_continuity (status : FilingStatus)
    (t₁ t₂ : ℚ) (h : t₁ ≤ t₂) :
    (bracketFold t₁ (DATA_2026 status).ord).1
        = ((DATA_2026 status).ord.map
            (fun b => (min (max t₁ b.1) b.2.1 - b.1) * (b.2.2 / 100))).sum ∧
    (bracketFold t₁ (DATA_2026 status).ord).1
        ≤ (bracketFold t₂ (DATA_2026 status).ord).1 ∧
    (bracketFold t₂ (DATA_2026 status).ord).1
          - (bracketFold t₁ (DATA_2026 status).ord).1
        ≤ (t₂ - t₁) * (172 / 100) := by
  refine ⟨?_, bracketFold_fst_mono (DATA_ord_OK status) h, ?_⟩
  · rw [bracketFold_fst]
    exact congrArg List.sum
      (List.map_congr_left fun b hb => ordTerm_closed ((DATA_ord_OK status) b hb).1 t₁)
  · have hl := bracketFold_fst_lipschitz (DATA_ord_OK status) h
    rw [ord_rates_sum] at hl
    exact hl

/-- Witness for C6 at the Single 12%/22% bracket edge, t₁ = 50400,
t₂ = 50401. -/
theorem ordinary_tax_bracket_continuity_witness :
    (bracketFold 50400 (DATA_2026 FilingStatus.Single).ord).1
        = ((DATA_2026 FilingStatus.Single).ord.map
            (fun b => (min (max 50400 b.1) b.2.1 - b.1) * (b.2.2 / 100))).sum ∧
    (bracketFold 50400 (DATA_2026 FilingStatus.Single).ord).1
        ≤ (bracketFold 50401 (DATA_2026 FilingStatus.Single).ord).1 ∧
    (bracketFold 50401 (DATA_2026 FilingStatus.Single).ord).1
          - (bracketFold 50400 (DATA_2026 FilingStatus.Single).ord).1
        ≤ (50401 - 50400) * (172 / 100) :=
  ordinary_tax_bracket_continuity FilingStatus.Single 50400 50401 (by norm_num)

/-- Claim C7: for every scenario whose ordinary taxable income is exactly
0, `get_tax_details` returns `ordinaryTax = 0`, enters no ordinary
bracket, and reports `topOrdinaryRate = 0`. -/
theorem zero_taxable_income_zero_tax (wages ltcg ss : ℚ)
    (status : FilingStatus) (senior : Bool)
    (h : t_ord_inc wages ltcg ss status senior = 0) :
    (get_tax_details wages ltcg ss status senior).ord_tax = 0 ∧
    (get_tax_details wages ltcg ss status senior).current_ord_rate = 0 := by
  have h0 : bracketFold 0 (DATA_2026 status).ord = (0, 0) := by
    cases status <;>
      norm_num [bracketFold, ordStep, DATA_2026, List.foldl_cons, List.foldl_nil]
  constructor
  · show (bracketFold (t_ord_inc wages ltcg ss status senior)
        (DATA_2026 status).ord).1 = 0
    rw [h, h0]
  · show (bracketFold (t_ord_inc wages ltcg ss status senior)
        (DATA_2026 status).ord).2 = 0
    rw [h, h0]

/-- Witness for C7 at (Married Filing Jointly, wages = 32200,
capitalGains = 0, socialSecurity = 0, senior = false), whose ordinary
taxable income is exactly 0. -/
theorem zero_taxable_income_zero_tax_witness :
    t_ord_inc 32200 0 0 FilingStatus.MarriedFilingJointly false = 0 ∧
    (get_tax_details 32200 0 0 FilingStatus.MarriedFilingJointly false).ord_tax = 0 ∧
    (get_tax_details 32200 0 0 FilingStatus.MarriedFilingJointly false).current_ord_rate = 0 := by
  have h : t_ord_inc 32200 0 0 FilingStatus.MarriedFilingJointly false = 0 := by
    norm_num [t_ord_inc, taxable_ss, prov, deduction, sd_used, phase_out, DATA_2026,
      min_def, max_def]
  exact ⟨h, zero_taxable_income_zero_tax 32200 0 0 FilingStatus.MarriedFilingJointly false h⟩

/-- Counterexample to claim C8 as stated: at Single wages = 75000 (exactly
`seniorPhaseoutStart`), capitalGains = 20000, senior = true, the senior
deduction is phased down to 5300, not the full 6500, because capital
gains also count toward the phase-out excess. -/
theorem senior_phaseout_start_counterexample :
    (75000 : ℚ) = (DATA_2026 FilingStatus.Single).phaseout_start ∧
    ¬ (get_tax_details 75000 20000 0 FilingStatus.Single true).sd_used
        = (DATA_2026 FilingStatus.Single).senior_deduction := by
  constructor
  · norm_num [DATA_2026]
  · norm_num [get_tax_details, sd_used, phase_out, DATA_2026, min_def, max_def]

/-- Claim C8 as amended: for every scenario with `isSenior = true`,
`seniorDeductionUsed = max(0, seniorDeduction - 0.06 * max(0, wages + capitalGains - seniorPhaseoutStart))`;
and when additionally `capitalGains = 0` and wages equal exactly the
schedule's `seniorPhaseoutStart`, the phase-out excess is zero and
`seniorDeductionUsed` equals the full `seniorDeduction`. -/
theorem senior_phaseout_formula (wages ltcg ss : ℚ) (status : FilingStatus)
    (senior : Bool) :
    (get_tax_details wages ltcg ss status senior).sd_used
        = spec_sd_used wages ltcg status senior ∧
    (senior = true → ltcg = 0 → wages = (DATA_2026 status).phaseout_start →
      (get_tax_details wages ltcg ss status senior).sd_used
        = (DATA_2026 status).senior_deduction) := by
  constructor
  · show sd_used wages ltcg status senior = spec_sd_used wages ltcg status senior
    cases senior
    · rw [sd_used_false, sd_used_false']
    · rw [sd_used_true, sd_used_true']
      unfold phase_out
      rw [max_zero_mul_const]
  · intro hsen hl hwp
    subst hsen; subst hl; subst hwp
    show sd_used (DATA_2026 status).phaseout_start 0 status true
        = (DATA_2026 status).senior_deduction
    cases status <;> norm_num [sd_used, phase_out, DATA_2026, min_def, max_def]

/-- Witness for C8's amended claim at (Single, wages = 75000,
capitalGains = 0, senior = true). -/
theorem senior_phaseout_formula_witness :
    (get_tax_details 75000 0 0 FilingStatus.Single true).sd_used
        = spec_sd_used 75000 0 FilingStatus.Single true ∧
    (true = true → (0 : ℚ) = 0 →
      (75000 : ℚ) = (DATA_2026 FilingStatus.Single).phaseout_start →
      (get_tax_details 75000 0 0 FilingStatus.Single true).sd_used
        = (DATA_2026 FilingStatus.Single).senior_deduction) :=
  senior_phaseout_formula 75000 0 0 FilingStatus.Single true

/-- Claim C9: for every scenario in which the stacked total (ordinary
taxable income plus the capital-gains-taxed portion) exceeds the lower
bound of the top capital-gains bracket, `get_tax_details` reports
`topCapitalGainsRate = 20`, the top bracket's rate, not an earlier one. -/
theorem top_ltcg_rate_reported (wages ltcg ss : ℚ) (status : FilingStatus)
    (senior : Bool)
    (h : topLtcgLow status
        < t_ord_inc wages ltcg ss status senior + l_portion wages ltcg ss status senior) :
    (DATA_2026 status).ltcg.getLast? = some (topLtcgLow status, 9000000000, 20) ∧
    (get_tax_details wages ltcg ss status senior).current_ltcg_rate = 20 := by
  refine ⟨by cases status <;> rfl, ?_⟩
  show (ltcgFold (t_ord_inc wages ltcg ss status senior)
      (l_portion wages ltcg ss status senior) (DATA_2026 status).ltcg).2 = 20
  cases status
  · simp only [topLtcgLow] at h
    simp only [ltcgFold, DATA_2026, List.foldl_cons, List.foldl_nil, ltcgStep]
    rw [if_pos h]
  · simp only [topLtcgLow] at h
    simp only [ltcgFold, DATA_2026, List.foldl_cons, List.foldl_nil, ltcgStep]
    rw [if_pos h]

/-- Witness for C9 at (Single, wages = 0, capitalGains = 600000,
socialSecurity = 0, senior = false), whose stacked total 583900 exceeds
545500. -/
theorem top_ltcg_rate_reported_witness :
    (DATA_2026 FilingStatus.Single).ltcg.getLast?
        = some (topLtcgLow FilingStatus.Single, 9000000000, 20) ∧
    (get_tax_details 0 600000 0 FilingStatus.Single false).current_ltcg_rate = 20 := by
  have h1 : taxable_ss 0 600000 0 FilingStatus.Single = 0 := taxable_ss_zero _ _ _
  have h : topLtcgLow FilingStatus.Single
      < t_ord_inc 0 600000 0 FilingStatus.Single false
          + l_portion 0 600000 0 FilingStatus.Single false := by
    unfold l_portion t_total t_ord_inc deduction
    rw [h1, sd_used_false]
    norm_num [topLtcgLow, DATA_2026, max_def]
  exact top_ltcg_rate_reported 0 600000 0 FilingStatus.Single false h

/-- Claim C10: for every scenario with `capitalGains = 0`,
`get_tax_details` returns `capitalGainsTax = 0`: the gains portion is 0
and every bracket-overlap term in the capital-gains loop vanishes. -/
theorem zero_gains_zero_ltcg_tax (wages ss : ℚ) (status : FilingStatus)
    (senior : Bool) :
    (get_tax_details wages 0 ss status senior).l_tax = 0 := by
  have hp : l_portion wages 0 ss status senior = 0 := by
    unfold l_portion t_total t_ord_inc
    have he : wages + taxable_ss wages 0 ss status + 0
        = wages + taxable_ss wages 0 ss status := by ring
    rw [he, sub_self]
    exact max_self 0
  show (ltcgFold (t_ord_inc wages 0 ss status senior)
      (l_portion wages 0 ss status senior) (DATA_2026 status).ltcg).1 = 0
  rw [hp, ltcgFold_fst]
  apply List.sum_eq_zero
  intro x hx
  rw [List.mem_map] at hx
  obtain ⟨b, hb, rfl⟩ := hx
  exact ltcgTerm_zero_portion _ b

end MarginalTaxGraph
